import Mathlib

set_option maxHeartbeats 2000000
set_option maxRecDepth 20000

/-!
Shallow embedding of the scout execution pipeline of the open-scouts
repository: the executor `executeScoutAgent` together with the Firecrawl
tool adapters `executeSearchTool` / `executeScrapeTool`
(src/supabase/functions/scout-cron/types.ts) and the edge-function entry
point (the `serve` handler of the scout-cron function).

External effects are modelled explicitly:
* LLM chat completions are an oracle `turns : Nat -> Turn` giving, for each
  loop iteration, either a transport failure or the assistant message
  (content and tool calls, each tool call paired with the value the
  Firecrawl adapter returned for it).
* Database writes (execution row, scout row, the per-user key record and
  the bulk scout-disable of the 402 handler) are recorded in the result.
* `constants.ts` and `helpers.ts` of the scout-cron function are not part
  of the sources; the blacklist membership test `isBlacklistedDomain` is
  therefore kept abstract as a function parameter (only its result matters
  to the executor), and the helpers (`createStep`, `updateStep`,
  `markFirecrawlKeyInvalid`, `getFirecrawlKeyForUser`,
  `sendScoutSuccessEmail`) are modelled by their recorded effects
  (`keyMarkedInvalid`, `emailSent`, `hasKey`).
* `JSON.parse` is a JavaScript builtin; it is kept abstract as a parameter
  `jparse : String -> Option ScoutResponse` (the result of a successful
  parse into the structured-response shape, `none` when parsing throws).
JavaScript numbers are idealised as exact arithmetic: vector entries are
rationals and `Math.sqrt` is `Real.sqrt`.
-/

namespace OpenScouts

/-- Whether `pat` occurs as a contiguous run in `l`: it is a prefix here
or occurs in the tail (the empty pattern occurs everywhere). -/
def containsAux (pat : List Char) : List Char → Bool
  | [] => pat.isEmpty
  | c :: cs => pat.isPrefixOf (c :: cs) || containsAux pat cs

/-- Models the JavaScript `String.prototype.includes` test used on tool
error messages (`toolResult.error.includes("401")`, `.includes("402")`)
and on the final content (`jsonString.includes("json fence")`). -/
def jsIncludes (s pat : String) : Bool := containsAux pat.data s.data

/-- Models the JavaScript `String.prototype.trim`: leading and trailing
whitespace removed. -/
def jsTrim (s : String) : String :=
  String.mk (((s.data.dropWhile Char.isWhitespace).reverse.dropWhile Char.isWhitespace).reverse)

/-- Operational state of a row of the `scouts` table (the fields the
executor reads and updates). -/
structure ScoutRow where
  is_active : Bool
  last_run_at : Option String
  consecutive_failures : Nat
deriving DecidableEq

/-- The structured agent result (interface `ScoutResponse`, types.ts lines
37-41). `taskStatus` is a plain string because a parsed JSON object can
carry any value there. -/
structure ScoutResponse where
  taskCompleted : Bool
  taskStatus : String
  response : String
deriving DecidableEq

/-- One row of the recent-executions query (types.ts lines 161-169):
`summary_text`, `summary_embedding`, `completed_at` of a completed
execution of the same scout, ordered most recent first. -/
structure Finding where
  summary_text : String
  completed_at : String
  emb : List ℚ
deriving DecidableEq

/-- The two tools declared to the model (types.ts lines 355-386). -/
inductive ToolName
  | searchWeb
  | scrapeWebsite
deriving DecidableEq

/-- One tool call of an assistant message, paired with the value the
adapter returned for it: `outcome = some e` models a returned object with
an `error` field `e` (the adapters never throw, see `executeSearchTool`
below), `none` a success object. `arg` is `toolArgs.query` for search and
`toolArgs.url` for scrape. -/
structure ToolCall where
  name : ToolName
  arg : String
  outcome : Option String
deriving DecidableEq

/-- An assistant message: optional `content` and the list of tool calls
(the code path splits on `tool_calls && tool_calls.length > 0`). -/
structure AssistantMsg where
  content : Option String
  tool_calls : List ToolCall
deriving DecidableEq

/-- Oracle value for one loop iteration: either the chat-completions call
failed (non-ok response or 60 s abort, thrown at types.ts lines 400-403)
or it produced an assistant message. -/
inductive Turn
  | chatErr (msg : String)
  | assistant (msg : AssistantMsg)
deriving DecidableEq

/-- Oracle for the post-loop summary generation (types.ts lines 579-639):
the summary chat call failed (`fail`), returned text but the embedding
call failed (`textOnly`), or both succeeded (`textEmb`). -/
inductive SummaryOutcome
  | fail
  | textOnly (s : String)
  | textEmb (s : String) (e : List ℚ)
deriving DecidableEq

/-- Status column of `scout_executions`. -/
inductive ExecStatus
  | running
  | completed
  | failed
deriving DecidableEq

/-- Final state of the execution row written by the executor. -/
structure ExecRecord where
  status : ExecStatus
  results_summary : Option ScoutResponse
  summary_text : Option String
  summary_embedding : Option (List ℚ)
  error_message : Option String
deriving DecidableEq

/-- Mutable state threaded through the agent loop: `cErr` is the local
`consecutiveErrors` counter, `row` the scouts-table row of the executing
scout (its `is_active` can be flipped by the 402 handler mid-run),
`keyInv` records a `markFirecrawlKeyInvalid` call and `allDis` the
402 handler's bulk `is_active=false` update over all scouts of the user. -/
structure LoopState where
  cErr : Nat
  row : ScoutRow
  keyInv : Bool
  allDis : Bool
deriving DecidableEq

/-- Result of processing one tool call: continue with the new state, or
the `Too many consecutive tool errors` throw (types.ts line 512). -/
inductive StepRes
  | ok (st : LoopState)
  | abort (st : LoopState) (msg : String)
deriving DecidableEq

def StepRes.state : StepRes → LoopState
  | .ok st => st
  | .abort st _ => st

def StepRes.abortMsg : StepRes → Option String
  | .ok _ => none
  | .abort _ m => some m

/-- How the `while` loop (types.ts line 339) ended: a tool-free assistant
message with the given content after `loopCount` iterations, the
`maxLoops` bound with tool calls still coming, or a thrown error. -/
inductive LoopExit
  | finals (content : Option String) (loopCount : Nat)
  | maxed
  | threw (msg : String)
deriving DecidableEq

/-- All oracle inputs of one `executeScoutAgent` invocation. `hasKey`
models `getFirecrawlKeyForUser` returning a usable key; `recent` is the
recent-executions query result (most recent first); `now` stands for
`new Date().toISOString()`. -/
structure RunInput where
  scout : ScoutRow
  hasKey : Bool
  turns : Nat → Turn
  recent : List Finding
  summary : SummaryOutcome
  now : String

/-- Observable outcome of one `executeScoutAgent` invocation: the final
execution row, the updated scout row, the credential side effects, whether
the success email was attempted, and the duplicate decision.
`finalParsed` is the structured response parsed from the final tool-free
assistant message (`none` when the run never reached one);
`finalAnnotated` is its value after the duplicate note was appended. -/
structure RunResult where
  exec : ExecRecord
  scout : ScoutRow
  keyMarkedInvalid : Bool
  allScoutsDisabled : Bool
  emailSent : Bool
  isDuplicate : Bool
  dupFinding : Option Finding
  finalParsed : Option ScoutResponse
  finalAnnotated : Option ScoutResponse

/-- Error thrown when the user has no Firecrawl key (types.ts line 142). -/
def noKeyMsg : String :=
  "User does not have a valid Firecrawl API key configured. Please add your API key in Settings."

/-- Error thrown by the 402 handler (types.ts line 484); it is caught by
the surrounding tool-execution catch and becomes the tool result. -/
def creditsExhaustedMsg : String :=
  "Firecrawl API credits exhausted. All your scouts have been paused. Please add your own Firecrawl API key in Settings → Firecrawl Integration → Custom API Key. Get your key at https://www.firecrawl.dev/app/api-keys"

/-- The consecutive-errors throw (types.ts line 512), interpolating the
last tool error. -/
def tooManyErrorsMsg (lastError : String) : String :=
  "Too many consecutive tool errors (3). Last error: " ++ lastError

/-- Placeholder used when the final content is falsy (types.ts line 562). -/
def agentNoOutputMsg : String := "Agent completed without structured output"

/-- The reached-iteration-limit message (types.ts line 760). -/
def reachedLimitMsg : String :=
  "The scout execution reached its maximum iteration limit. The AI agent may have encountered repeated errors or gotten stuck in a loop. Please check the execution steps for more details."

/-- The synthetic summary written when `maxLoops` is hit (types.ts lines
757-761). -/
def incompleteSummary : ScoutResponse :=
  { taskCompleted := false, taskStatus := "partial", response := reachedLimitMsg }

def maxLoops : Nat := 7

def maxConsecutiveErrors : Nat := 3

/-- Similarity threshold of the duplicate check (types.ts line 643). -/
def similarityThreshold : ℚ := 85 / 100

/-- The accumulated dot product of `cosineSimilarity` (types.ts lines
81-85); applied to a list with itself it is the accumulated squared
norm. -/
def dotl (vecA vecB : List ℚ) : ℚ :=
  (List.zipWith (fun x y => x * y) vecA vecB).sum

/-- Direct translation of `cosineSimilarity` (types.ts lines 72-95) over
exact arithmetic: `none` models the length-mismatch throw, a zero norm
yields similarity 0, otherwise the dot product over the product of the
square-rooted norms. The source tests `normA === 0 then normB === 0` on the
square roots; since the squared norms are nonnegative, `Real.sqrt x = 0`
is equivalent to `x = 0`, and the branch condition is stated on the
rational squared norms so that it stays decidable. -/
noncomputable def cosineSimilarity (vecA vecB : List ℚ) : Option ℝ :=
  if vecA.length ≠ vecB.length then none
  else if dotl vecA vecA = 0 ∨ dotl vecB vecB = 0 then
    some 0
  else
    some (((dotl vecA vecB : ℚ) : ℝ) /
      (Real.sqrt ((dotl vecA vecA : ℚ) : ℝ) * Real.sqrt ((dotl vecB vecB : ℚ) : ℝ)))

/-- Executable decision of `cosineSimilarity vecA vecB >= t` for a positive
threshold `t`, obtained by clearing the square roots: with zero norms the
similarity is 0, otherwise the comparison is equivalent to the dot product
being nonnegative with its square at least `t^2` times the product of the
squared norms. The equivalence with `cosineSimilarity` is proved in
`simGeQ_iff_cosine` below. -/
def simGeQ (vecA vecB : List ℚ) (t : ℚ) : Bool :=
  if dotl vecA vecA = 0 ∨ dotl vecB vecB = 0 then decide (t ≤ 0)
  else decide (0 ≤ dotl vecA vecB ∧ t ^ 2 * (dotl vecA vecA * dotl vecB vecB) ≤ dotl vecA vecB ^ 2)

/-- The duplicate-detection loop over the pre-filtered recent executions
(types.ts lines 652-698): skip a previous embedding that is not 1536-dim,
skip it when its length differs from the current embedding, and stop at
the first one whose cosine similarity reaches the threshold. -/
def findDup (currentEmbedding : List ℚ) : List Finding → Option Finding
  | [] => none
  | f :: fs =>
    if f.emb.length ≠ 1536 then findDup currentEmbedding fs
    else if f.emb.length ≠ currentEmbedding.length then findDup currentEmbedding fs
    else if simGeQ currentEmbedding f.emb similarityThreshold then some f
    else findDup currentEmbedding fs

/-- The note appended to the response of a duplicate run (types.ts line
691). The date rendering (`toLocaleDateString`, locale dependent) and the
similarity percentage (`toFixed`, binary floating point formatting) are
abstracted: the note carries the matched finding's raw `completed_at` and
`summary_text`. -/
def mkDupNote (f : Finding) : String :=
  "\n\n---\n**Note**: This finding appears very similar to a previous result from " ++
    f.completed_at ++ ": \"" ++ f.summary_text ++ "\" (similarity above threshold)"

/-- Mutation of `scoutResponse.response` performed when a duplicate was
found (types.ts line 691). -/
def annotate (resp : ScoutResponse) : Option Finding → ScoutResponse
  | some f => { resp with response := resp.response ++ mkDupNote f }
  | none => resp

/-- The duplicate decision (types.ts lines 641-707): only reached when the
task completed, an embedding was generated and the pre-filtering of the
recent-executions query (types.ts lines 171-181, keeping exactly the
1536-dim embeddings) left something to compare against. -/
def dedupDecision (resp : ScoutResponse) (sumEmb : Option (List ℚ)) (recent : List Finding) :
    Option Finding :=
  let filtered := recent.filter (fun f => f.emb.length == 1536)
  if resp.taskCompleted && sumEmb.isSome && !filtered.isEmpty then
    findDup (sumEmb.getD []) filtered
  else none

/-- Removes every occurrence of `pat` together with the whitespace run
following it: the model of the global regex replacements of a fence
pattern followed by whitespace (types.ts lines 543-547). Splitting on the
literal pattern and trimming the leading whitespace of every following
segment reproduces the left-to-right non-overlapping matches of the
regex. -/
def replacePatWs (pat s : String) : String :=
  match s.splitOn pat with
  | [] => s
  | h :: t => h ++ String.join (t.map (fun seg => seg.dropWhile Char.isWhitespace))

/-- The closing-curly-brace character (code point 125). -/
def rbrace : Char := Char.ofNat 125

/-- Truncation to the last closing brace (types.ts lines 549-553): if the
string has a closing brace, keep everything up to and including the last
one; otherwise leave the string unchanged. -/
def truncLastBrace (s : String) : String :=
  match s.data.reverse.findIdx? (fun c => c == rbrace) with
  | none => s
  | some i => String.mk (s.data.take (s.data.length - i))

/-- The cleanup applied to the final assistant content before `JSON.parse`
(types.ts lines 539-553): trim, strip a json-tagged fence and then bare
fences when a json-tagged fence occurs, otherwise bare fences when any
fence occurs, then truncate to the last closing brace. -/
def cleanJson (finalContent : String) : String :=
  let s := jsTrim finalContent
  let s1 :=
    if jsIncludes s ("```" ++ "json") then
      replacePatWs "```" (replacePatWs ("```" ++ "json") s)
    else if jsIncludes s "```" then replacePatWs "```" s
    else s
  truncLastBrace s1

/-- The default structured response built when parsing fails (types.ts
lines 557-564); `finalContent or-else placeholder` means the placeholder
is used exactly when the content is null or the empty string. -/
def fallbackResponse (finalContent : Option String) : ScoutResponse :=
  { taskCompleted := false
    taskStatus := "insufficient_data"
    response :=
      match finalContent with
      | some s => if s = "" then agentNoOutputMsg else s
      | none => agentNoOutputMsg }

/-- Parsing of the final assistant message (types.ts lines 534-564). A
null content throws on `.trim()` inside the try, landing in the fallback;
otherwise the cleaned string is fed to `jparse` (the `JSON.parse`
abstraction) and a parse failure yields the fallback response carrying the
raw content. -/
def parseFinal (jparse : String → Option ScoutResponse) (content : Option String) :
    ScoutResponse :=
  match content with
  | none => fallbackResponse none
  | some s =>
    match jparse (cleanJson s) with
    | some r => r
    | none => fallbackResponse (some s)

/-- Post-loop summary and embedding generation (types.ts lines 575-639):
only attempted when the task completed; the summary text is the trimmed
chat content; failures leave the fields null. -/
def genSummary (resp : ScoutResponse) (o : SummaryOutcome) :
    Option String × Option (List ℚ) :=
  if resp.taskCompleted then
    match o with
    | .fail => (none, none)
    | .textOnly s => (some (jsTrim s), none)
    | .textEmb s e => (some (jsTrim s), some e)
  else (none, none)

def summaryTextOf : SummaryOutcome → Option String
  | .fail => none
  | .textOnly s => some s
  | .textEmb s _ => some s

def summaryEmbOf : SummaryOutcome → Option (List ℚ)
  | .textEmb _ e => some e
  | _ => none

/-- The blacklisted-scrape test of the error accounting (types.ts lines
503-505): the tool is `scrapeWebsite`, `toolArgs.url` is truthy (non-empty)
and the url is blacklisted. -/
def isBlacklistedScrape (isBlacklistedDomain : String → Bool) (c : ToolCall) : Bool :=
  (c.name == ToolName.scrapeWebsite) && (c.arg != "") && isBlacklistedDomain c.arg

/-- The tool result's error after the 402 handler ran: the handler throws
`creditsExhaustedMsg`, which the enclosing catch (types.ts lines 486-490)
turns into the recorded tool error, replacing the original message. -/
def effErrOf (c : ToolCall) : Option String :=
  match c.outcome with
  | none => none
  | some e => if jsIncludes e "402" then some creditsExhaustedMsg else some e

/-- Processing of one tool call inside the loop (types.ts lines 413-529):
401 errors mark the key invalid; 402 errors additionally disable every
scout of the user and throw, but the throw is caught by the tool-execution
catch and becomes the tool error; then the error accounting runs: a scrape
error on a blacklisted url is not counted, any other error increments
`consecutiveErrors` and aborts the run at `maxConsecutiveErrors`, and a
success resets the counter. -/
def processToolCall (isBlacklistedDomain : String → Bool) (st : LoopState) (c : ToolCall) :
    StepRes :=
  let st1 :=
    match c.outcome with
    | some e => if jsIncludes e "401" then { st with keyInv := true } else st
    | none => st
  let st2 :=
    match c.outcome with
    | some e =>
      if jsIncludes e "402" then
        { st1 with row := { st1.row with is_active := false }, allDis := true, keyInv := true }
      else st1
    | none => st1
  match effErrOf c with
  | none => StepRes.ok { st2 with cErr := 0 }
  | some e =>
    if isBlacklistedScrape isBlacklistedDomain c then StepRes.ok st2
    else
      if maxConsecutiveErrors ≤ st2.cErr + 1 then
        StepRes.abort { st2 with cErr := st2.cErr + 1 } (tooManyErrorsMsg e)
      else StepRes.ok { st2 with cErr := st2.cErr + 1 }

/-- Sequential processing of an assistant message's tool calls; a throw
exits the whole `for` loop (and the function body). -/
def processToolCalls (isBlacklistedDomain : String → Bool) (st : LoopState) :
    List ToolCall → StepRes
  | [] => StepRes.ok st
  | c :: cs =>
    match processToolCall isBlacklistedDomain st c with
    | StepRes.ok st2 => processToolCalls isBlacklistedDomain st2 cs
    | StepRes.abort st2 m => StepRes.abort st2 m

/-- The agent `while` loop (types.ts lines 339-750), with `fuel` the
remaining iterations out of `maxLoops` and `lc` the number of completed
iterations. A chat failure throws; an assistant message with tool calls
processes them and loops; a tool-free message ends the loop carrying its
content and the final `loopCount`. -/
def runLoopAux (isBlacklistedDomain : String → Bool) (turns : Nat → Turn) :
    Nat → Nat → LoopState → LoopState × LoopExit
  | 0, _, st => (st, LoopExit.maxed)
  | fuel + 1, lc, st =>
    match turns lc with
    | Turn.chatErr m => (st, LoopExit.threw m)
    | Turn.assistant msg =>
      if msg.tool_calls.isEmpty then (st, LoopExit.finals msg.content (lc + 1))
      else
        match processToolCalls isBlacklistedDomain st msg.tool_calls with
        | StepRes.abort st2 m => (st2, LoopExit.threw m)
        | StepRes.ok st2 => runLoopAux isBlacklistedDomain turns fuel (lc + 1) st2

def initState (s : ScoutRow) : LoopState :=
  { cErr := 0, row := s, keyInv := false, allDis := false }

/-- The catch block of `executeScoutAgent` (types.ts lines 795-845): the
execution row is marked failed with the error message, and the scout row
gets `last_run_at = now`, `consecutive_failures` incremented from the
value read at dispatch, and `is_active = false` exactly when the new count
reaches 3 (otherwise `is_active` keeps its current value, which the 402
handler may already have set to false). -/
def failedResult (inp : RunInput) (st : LoopState) (msg : String) : RunResult :=
  { exec :=
      { status := ExecStatus.failed, results_summary := none, summary_text := none
        summary_embedding := none, error_message := some msg }
    scout :=
      { is_active := if 3 ≤ inp.scout.consecutive_failures + 1 then false else st.row.is_active
        last_run_at := some inp.now
        consecutive_failures := inp.scout.consecutive_failures + 1 }
    keyMarkedInvalid := st.keyInv
    allScoutsDisabled := st.allDis
    emailSent := false
    isDuplicate := false
    dupFinding := none
    finalParsed := none
    finalAnnotated := none }

/-- The max-loops epilogue (types.ts lines 753-780): the execution row is
written completed with the synthetic partial summary (summary fields never
set), then the scout row gets `last_run_at = now` and the failure counter
reset. -/
def finishMaxed (inp : RunInput) (st : LoopState) : RunResult :=
  { exec :=
      { status := ExecStatus.completed, results_summary := some incompleteSummary
        summary_text := none, summary_embedding := none, error_message := none }
    scout :=
      { is_active := st.row.is_active, last_run_at := some inp.now, consecutive_failures := 0 }
    keyMarkedInvalid := st.keyInv
    allScoutsDisabled := st.allDis
    emailSent := false
    isDuplicate := false
    dupFinding := none
    finalParsed := none
    finalAnnotated := none }

/-- The final-message epilogue (types.ts lines 530-780): parse the content,
generate summary and embedding, run the duplicate check, persist the
completed row, send the success email iff the task completed and no
duplicate was found, and reset the scout's failure counter. When the final
message arrived on the very last allowed iteration, the max-loops check
(line 753) still fires and overwrites `results_summary` with the synthetic
partial summary (the summary fields and the already-sent email are left as
they are). -/
def finishFinal (jparse : String → Option ScoutResponse) (inp : RunInput) (st : LoopState)
    (content : Option String) (lc : Nat) : RunResult :=
  let resp := parseFinal jparse content
  let se := genSummary resp inp.summary
  let dup := dedupDecision resp se.2 inp.recent
  { exec :=
      { status := ExecStatus.completed
        results_summary := some (if maxLoops ≤ lc then incompleteSummary else annotate resp dup)
        summary_text := se.1
        summary_embedding := se.2
        error_message := none }
    scout :=
      { is_active := st.row.is_active, last_run_at := some inp.now, consecutive_failures := 0 }
    keyMarkedInvalid := st.keyInv
    allScoutsDisabled := st.allDis
    emailSent := resp.taskCompleted && dup.isNone
    isDuplicate := dup.isSome
    dupFinding := dup
    finalParsed := some resp
    finalAnnotated := some (annotate resp dup) }

/-- The executor `executeScoutAgent` (types.ts lines 98-846) as a function
of its oracle inputs: a missing Firecrawl key throws before the loop;
otherwise the agent loop runs and the matching epilogue produces the
persisted state. -/
def executeScoutAgent (isBlacklistedDomain : String → Bool)
    (jparse : String → Option ScoutResponse) (inp : RunInput) : RunResult :=
  if inp.hasKey then
    match runLoopAux isBlacklistedDomain inp.turns maxLoops 0 (initState inp.scout) with
    | (st, LoopExit.threw m) => failedResult inp st m
    | (st, LoopExit.maxed) => finishMaxed inp st
    | (st, LoopExit.finals content lc) => finishFinal jparse inp st content lc
  else failedResult inp (initState inp.scout) noKeyMsg

/-- The scout row as fetched by the entry point, with the configuration
fields its completeness check reads. `hasLocation` models a non-null
`location` object. -/
structure ScoutCfg where
  id : String
  title : String
  goal : String
  description : String
  hasLocation : Bool
  search_queries : List String
  frequency : String
  row : ScoutRow
deriving DecidableEq

/-- The completeness check of the entry point (part_003 lines 64-70), with
JavaScript truthiness of the string fields (non-empty) and of the optional
`frequency` (the empty string models null). -/
def isComplete (scout : ScoutCfg) : Bool :=
  (scout.title != "") && (scout.goal != "") && (scout.description != "") &&
    scout.hasLocation && (scout.search_queries.length > 0) && (scout.frequency != "")

/-- The HTTP responses of the entry point: `okPre` is the CORS preflight
"ok", `success` the 200 body, `conflict` the 409 body carrying the scout id
and the running execution's id, `err` the 500 body. -/
inductive ServeResponse
  | okPre
  | success (scoutId title : String)
  | conflict (scoutId runningExecutionId : String)
  | err (msg : String)
deriving DecidableEq

/-- Inputs of one entry-point invocation (part_003): the request kind, the
environment check, the resolved `scoutId` (from query or body), the scout
lookup result, the id of an existing running execution if any, and the
oracle inputs the executor would use. -/
structure ServeReq where
  isOptions : Bool
  envOk : Bool
  scoutId : Option String
  lookup : Option ScoutCfg
  runningExecutionId : Option String
  run : RunInput

/-- The entry-point handler (part_003 lines 12-126). The second component
is `some` of the executor's result exactly when `executeScoutAgent` was
invoked; `none` means the handler returned without creating any execution
row or step and without touching the scout row. -/
def serve (isBlacklistedDomain : String → Bool) (jparse : String → Option ScoutResponse)
    (req : ServeReq) : ServeResponse × Option RunResult :=
  if req.isOptions then (ServeResponse.okPre, none)
  else if !req.envOk then (ServeResponse.err "Supabase configuration missing", none)
  else
    match req.scoutId with
    | none =>
      (ServeResponse.err
        "scoutId is required. This function executes individual scouts dispatched by pg_cron.",
        none)
    | some sid =>
      match req.lookup with
      | none => (ServeResponse.err ("Scout " ++ sid ++ " not found in database"), none)
      | some scout =>
        if !scout.row.is_active then
          (ServeResponse.err ("Scout " ++ sid ++ " is not active"), none)
        else if !isComplete scout then
          (ServeResponse.err ("Scout " ++ sid ++ " configuration is not complete"), none)
        else
          match req.runningExecutionId with
          | some rid => (ServeResponse.conflict scout.id rid, none)
          | none =>
            (ServeResponse.success scout.id scout.title,
              some (executeScoutAgent isBlacklistedDomain jparse req.run))

/-- Arguments of the `searchWeb` tool as used by `executeSearchTool`. -/
structure SearchArgs where
  query : String
deriving DecidableEq

/-- Arguments of the `scrapeWebsite` tool. -/
structure ScrapeArgs where
  url : String
deriving DecidableEq

/-- Outcome of the `fetch` call inside a tool (all failure modes end in the
tool's catch): the 60 s abort (`AbortError`), any other thrown transport
error, a non-ok HTTP response with its status line and body text, or an ok
response with the parsed payload. -/
inductive FetchOut (α : Type)
  | abortTimeout
  | netErr (msg : String)
  | notOk (status : Nat) (statusText errorText : String)
  | ok (payload : α)
deriving DecidableEq

/-- One entry of `data.data.web` in the Firecrawl search response. -/
structure WebItem where
  title : Option String
  url : String
  description : Option String
  publishedTime : Option String
  favicon : Option String
deriving DecidableEq

/-- One mapped search result (types.ts lines 936-943). -/
structure SearchResultItem where
  title : String
  url : String
  description : String
  markdown : String
  publishedTime : Option String
  favicon : Option String
deriving DecidableEq

/-- Return value of `executeSearchTool`: the success object (query, count,
filtered results and the number of blacklisted urls removed) or the error
object `error, query, results: empty` of the catch (types.ts line 968). -/
inductive SearchToolRes
  | ok (query : String) (count : Nat) (results : List SearchResultItem) (filteredCount : Nat)
  | err (error : String) (query : String) (results : List SearchResultItem)
deriving DecidableEq

/-- JavaScript `a or-else dflt` on an optional string: the default is used
when the value is null or empty. -/
def jsOr (a : Option String) (dflt : String) : String :=
  match a with
  | some v => if v = "" then dflt else v
  | none => dflt

/-- JavaScript `a or-else null`: an empty string collapses to null. -/
def truthy (a : Option String) : Option String :=
  match a with
  | some v => if v = "" then none else some v
  | none => none

def searchTimeoutMsg : String := "Search request timed out after 60 seconds"

def scrapeTimeoutMsg : String := "Scrape request timed out after 60 seconds"

/-- The non-ok throw of the search tool (types.ts line 927). -/
def searchFailureMsg (status : Nat) (statusText errorText : String) : String :=
  "Firecrawl search failed: " ++ toString status ++ " " ++ statusText ++ " - " ++ errorText

/-- The non-ok throw of the scrape tool (types.ts line 1028). -/
def scrapeFailureMsg (status : Nat) (statusText errorText : String) : String :=
  "Firecrawl scrape failed: " ++ toString status ++ " " ++ statusText ++ " - " ++ errorText

/-- The per-item mapping of search results (types.ts lines 936-943):
falsy titles fall back to the url, falsy descriptions to the empty string
(also for `markdown`), and a falsy favicon becomes null. -/
def mapWebItem (item : WebItem) : SearchResultItem :=
  { title := jsOr item.title item.url
    url := item.url
    description := jsOr item.description ""
    markdown := jsOr item.description ""
    publishedTime := item.publishedTime
    favicon := truthy item.favicon }

/-- `executeSearchTool` (types.ts lines 861-970): every failure mode of the
body is caught and returned as an error object carrying the query and an
empty result list, the abort carrying the fixed timeout message; an ok
response is mapped and filtered against the blacklist. The function is
total over all fetch outcomes: it never throws. -/
def executeSearchTool (args : SearchArgs) (isBlacklistedDomain : String → Bool)
    (fetched : FetchOut (List WebItem)) : SearchToolRes :=
  match fetched with
  | FetchOut.abortTimeout => SearchToolRes.err searchTimeoutMsg args.query []
  | FetchOut.netErr m => SearchToolRes.err m args.query []
  | FetchOut.notOk status statusText errorText =>
    SearchToolRes.err (searchFailureMsg status statusText errorText) args.query []
  | FetchOut.ok webResults =>
    let allResults := webResults.map mapWebItem
    let results := allResults.filter (fun item => !(isBlacklistedDomain item.url))
    SearchToolRes.ok args.query results.length results (allResults.length - results.length)

/-- The scraped payload `data.data` of the Firecrawl scrape response. -/
structure ScrapeData where
  markdown : Option String
  metaTitle : Option String
  ogImage : Option String
  metaFavicon : Option String
  screenshot : Option String
deriving DecidableEq

/-- Return value of `executeScrapeTool`: the success object or the error
object `error, url` of the catch (types.ts line 1051). -/
inductive ScrapeToolRes
  | ok (url title content : String) (favicon screenshot : Option String)
  | err (error : String) (url : String)
deriving DecidableEq

/-- `executeScrapeTool` (types.ts lines 973-1053): failures are returned as
an error object carrying the url; an ok response yields the markdown
truncated to 2000 characters, the title falling back to the url, and the
favicon resolved as `ogImage or-else favicon or-else null`. Total over all
fetch outcomes: it never throws. -/
def executeScrapeTool (args : ScrapeArgs) (fetched : FetchOut ScrapeData) : ScrapeToolRes :=
  match fetched with
  | FetchOut.abortTimeout => ScrapeToolRes.err scrapeTimeoutMsg args.url
  | FetchOut.netErr m => ScrapeToolRes.err m args.url
  | FetchOut.notOk status statusText errorText =>
    ScrapeToolRes.err (scrapeFailureMsg status statusText errorText) args.url
  | FetchOut.ok d =>
    ScrapeToolRes.ok args.url (jsOr d.metaTitle args.url) ((d.markdown.getD "").take 2000)
      (Option.orElse (truthy d.ogImage) (fun _ => truthy d.metaFavicon)) (truthy d.screenshot)

/-- A trivial blacklist (no domain blacklisted), used for concrete runs. -/
def noBl : String → Bool := fun _ => false

/-- A `JSON.parse` oracle that always fails; faithful on inputs on which
`JSON.parse` throws, such as the empty string or plain prose. -/
def noParse : String → Option ScoutResponse := fun _ => none

/-- A `JSON.parse` oracle that always yields a fixed completed response;
faithful on inputs whose cleaned content is that JSON object. -/
def parseCompleted : String → Option ScoutResponse :=
  fun _ => some { taskCompleted := true, taskStatus := "completed", response := "Found" }

/-- A fresh scout row used by concrete runs. -/
def s0row : ScoutRow :=
  { is_active := true, last_run_at := none, consecutive_failures := 0 }

/-- Concrete run in which the first tool call returns a 402 error and the
model then produces a tool-free final message. -/
def c1Inp : RunInput :=
  { scout := s0row, hasKey := true
    turns := fun n =>
      if n = 0 then
        Turn.assistant
          { content := none
            tool_calls :=
              [{ name := ToolName.searchWeb, arg := "ai news"
                 outcome := some "Firecrawl search failed: 402 Payment Required - Insufficient credits to perform this request." }] }
      else Turn.assistant { content := some "no new findings", tool_calls := [] }
    recent := [], summary := SummaryOutcome.fail, now := "2026-10-12T10:00:00.000Z" }

/-- A completely configured scout whose row is inactive. -/
def c2Scout : ScoutCfg :=
  { id := "s1", title := "AI News", goal := "Track AI news", description := "Monitor AI news"
    hasLocation := true, search_queries := ["AI news"], frequency := "daily"
    row := { is_active := false, last_run_at := none, consecutive_failures := 0 } }

/-- Placeholder run input for entry-point requests that never reach the
executor. -/
def c2Inp : RunInput :=
  { scout := c2Scout.row, hasKey := true, turns := fun _ => Turn.chatErr "unused"
    recent := [], summary := SummaryOutcome.fail, now := "2026-10-12T10:00:00.000Z" }

/-- Entry-point request for the inactive scout, with a running execution
`e1` present. -/
def c2Req : ServeReq :=
  { isOptions := false, envOk := true, scoutId := some "s1", lookup := some c2Scout
    runningExecutionId := some "e1", run := c2Inp }

/-- The same scout, active; request still sees the running execution. -/
def c2wScout : ScoutCfg :=
  { c2Scout with row := { is_active := true, last_run_at := none, consecutive_failures := 0 } }

def c2wReq : ServeReq := { c2Req with lookup := some c2wScout }

/-- Simple one-message run used to instantiate universally quantified
run-level theorems. -/
def c3Inp : RunInput :=
  { scout := s0row, hasKey := true
    turns := fun _ => Turn.assistant { content := some "done", tool_calls := [] }
    recent := [], summary := SummaryOutcome.fail, now := "2026-10-12T10:00:00.000Z" }

/-- Current embedding of the duplicate-detection scenario: a 1536-dim unit
vector. -/
def c4Cur : List ℚ := 1 :: 0 :: List.replicate 1534 0

/-- Embedding of the most recent previous finding: cosine similarity with
`c4Cur` is 12/13 (about 0.923). -/
def c4E1 : List ℚ := 12 :: 5 :: List.replicate 1534 0

/-- Embedding of an older finding: cosine similarity with `c4Cur` is 24/25
(0.96), strictly larger than that of `c4E1`. -/
def c4E2 : List ℚ := 24 :: 7 :: List.replicate 1534 0

def c4F1 : Finding :=
  { summary_text := "Mantra Cafe opened in Denver", completed_at := "2026-10-11", emb := c4E1 }

def c4F2 : Finding :=
  { summary_text := "Mantra Cafe opens on Broadway", completed_at := "2026-10-10", emb := c4E2 }

/-- Run whose completed result has embedding `c4Cur` and whose recent
findings (most recent first) are `c4F1` then `c4F2`. -/
def c4Input : RunInput :=
  { scout := s0row, hasKey := true
    turns := fun _ => Turn.assistant { content := some "json", tool_calls := [] }
    recent := [c4F1, c4F2]
    summary := SummaryOutcome.textEmb "Mantra Cafe opened" c4Cur
    now := "2026-10-12T10:00:00.000Z" }

/-- Same run with a single recent finding. -/
def c4wInput : RunInput := { c4Input with recent := [c4F1] }

/-- A 151-character summary text. -/
def c5Str : String := String.mk (List.replicate 151 'a')

/-- Run whose summarizer returns 151 characters and whose embedding call
returns a 2-dimensional vector. -/
def c5Inp : RunInput :=
  { scout := s0row, hasKey := true
    turns := fun _ => Turn.assistant { content := some "done", tool_calls := [] }
    recent := [], summary := SummaryOutcome.textEmb c5Str [1, 2]
    now := "2026-10-12T10:00:00.000Z" }

/-- Run whose summarizer respects the requested bounds. -/
def c5wInp : RunInput :=
  { c5Inp with summary := SummaryOutcome.textOnly "short summary" }

/-- Run whose model keeps issuing tool calls forever (each one
succeeding). -/
def c6Inp : RunInput :=
  { scout := s0row, hasKey := true
    turns := fun _ =>
      Turn.assistant
        { content := none
          tool_calls := [{ name := ToolName.searchWeb, arg := "q", outcome := none }] }
    recent := [], summary := SummaryOutcome.fail, now := "2026-10-12T10:00:00.000Z" }

/-- Run with no Firecrawl key for a scout with two prior failures. -/
def c7Inp : RunInput :=
  { scout := { is_active := true, last_run_at := none, consecutive_failures := 2 }
    hasKey := false, turns := fun _ => Turn.chatErr "unused"
    recent := [], summary := SummaryOutcome.fail, now := "2026-10-12T10:00:00.000Z" }

/-- Loop state with two consecutive errors already recorded. -/
def c8St : LoopState := { cErr := 2, row := s0row, keyInv := false, allDis := false }

/-- A failing search tool call. -/
def c8Call : ToolCall := { name := ToolName.searchWeb, arg := "q", outcome := some "boom" }

/-- Run whose final assistant message has empty content. -/
def c9Inp : RunInput :=
  { scout := s0row, hasKey := true
    turns := fun _ => Turn.assistant { content := some "", tool_calls := [] }
    recent := [], summary := SummaryOutcome.fail, now := "2026-10-12T10:00:00.000Z" }

theorem dotl_nil : dotl [] [] = 0 := rfl

theorem dotl_cons (x y : ℚ) (xs ys : List ℚ) :
    dotl (x :: xs) (y :: ys) = x * y + dotl xs ys := rfl

theorem dotl_self_nonneg (a : List ℚ) : 0 ≤ dotl a a := by
  induction a with
  | nil => simp [dotl]
  | cons x xs ih =>
    rw [dotl_cons]
    nlinarith [mul_self_nonneg x]

theorem dotl_replicate_zero (n : Nat) :
    dotl (List.replicate n 0) (List.replicate n 0) = 0 := by
  induction n with
  | zero => rfl
  | succ n ih => simp [List.replicate_succ, dotl_cons, ih]

/-- Evaluation of `dotl` on vectors that are zero beyond the first two
coordinates. -/
theorem dotl_two_replicate_zero (x y z w : ℚ) (n : Nat) :
    dotl (x :: y :: List.replicate n 0) (z :: w :: List.replicate n 0) = x * z + y * w := by
  rw [dotl_cons, dotl_cons, dotl_replicate_zero]
  ring

/-- The executable threshold test agrees with the real-valued
`cosineSimilarity`: for equal-length vectors and a positive threshold,
`simGeQ` is true exactly when the cosine similarity is defined and at
least the threshold. -/
theorem simGeQ_iff_cosine (a b : List ℚ) (t : ℚ) (hlen : a.length = b.length) (ht : 0 < t) :
    simGeQ a b t = true ↔ ∃ s : ℝ, cosineSimilarity a b = some s ∧ (t : ℝ) ≤ s := by
  have hna := dotl_self_nonneg a
  have hnb := dotl_self_nonneg b
  by_cases hz : dotl a a = 0 ∨ dotl b b = 0
  · have hs : cosineSimilarity a b = some 0 := by
      unfold cosineSimilarity
      rw [if_neg (by simp [hlen]), if_pos hz]
    have hL : simGeQ a b t = false := by
      unfold simGeQ
      rw [if_pos hz]
      simp [not_le.mpr ht]
    rw [hL, hs]
    constructor
    · intro h; exact absurd h (by simp)
    · rintro ⟨s, hs', hts⟩
      have hs0 : s = 0 := by injection hs' with h; exact h.symm
      rw [hs0] at hts
      have : (0 : ℝ) < (t : ℝ) := by exact_mod_cast ht
      linarith
  · push_neg at hz
    have ha0 : 0 < dotl a a := lt_of_le_of_ne hna (Ne.symm hz.1)
    have hb0 : 0 < dotl b b := lt_of_le_of_ne hnb (Ne.symm hz.2)
    have haR : (0 : ℝ) < ((dotl a a : ℚ) : ℝ) := by exact_mod_cast ha0
    have hbR : (0 : ℝ) < ((dotl b b : ℚ) : ℝ) := by exact_mod_cast hb0
    have hsA : 0 < Real.sqrt ((dotl a a : ℚ) : ℝ) := Real.sqrt_pos.mpr haR
    have hsB : 0 < Real.sqrt ((dotl b b : ℚ) : ℝ) := Real.sqrt_pos.mpr hbR
    have htR : (0 : ℝ) < (t : ℝ) := by exact_mod_cast ht
    have hcos : cosineSimilarity a b =
        some (((dotl a b : ℚ) : ℝ) /
          (Real.sqrt ((dotl a a : ℚ) : ℝ) * Real.sqrt ((dotl b b : ℚ) : ℝ))) := by
      unfold cosineSimilarity
      rw [if_neg (by simp [hlen]), if_neg (by push_neg; exact hz)]
    have hC2 : ((t : ℝ) * (Real.sqrt ((dotl a a : ℚ) : ℝ) * Real.sqrt ((dotl b b : ℚ) : ℝ))) ^ 2
        = (t : ℝ) ^ 2 * (((dotl a a : ℚ) : ℝ) * ((dotl b b : ℚ) : ℝ)) := by
      rw [mul_pow, mul_pow, Real.sq_sqrt haR.le, Real.sq_sqrt hbR.le]
    have hCpos : 0 < (t : ℝ) * (Real.sqrt ((dotl a a : ℚ) : ℝ) * Real.sqrt ((dotl b b : ℚ) : ℝ)) :=
      mul_pos htR (mul_pos hsA hsB)
    have hL : simGeQ a b t = true ↔
        (0 ≤ dotl a b ∧ t ^ 2 * (dotl a a * dotl b b) ≤ dotl a b ^ 2) := by
      unfold simGeQ
      rw [if_neg (by push_neg; exact hz)]
      exact decide_eq_true_iff
    rw [hL, hcos]
    constructor
    · rintro ⟨hd, hsq⟩
      refine ⟨_, rfl, ?_⟩
      rw [le_div_iff₀ (mul_pos hsA hsB)]
      have hdR : (0 : ℝ) ≤ ((dotl a b : ℚ) : ℝ) := by exact_mod_cast hd
      have hsqR : (t : ℝ) ^ 2 * (((dotl a a : ℚ) : ℝ) * ((dotl b b : ℚ) : ℝ))
          ≤ ((dotl a b : ℚ) : ℝ) ^ 2 := by exact_mod_cast hsq
      nlinarith [hC2, hCpos, hdR, hsqR]
    · rintro ⟨s, hs', hts⟩
      have hsval : s = ((dotl a b : ℚ) : ℝ) /
          (Real.sqrt ((dotl a a : ℚ) : ℝ) * Real.sqrt ((dotl b b : ℚ) : ℝ)) := by
        injection hs' with h; exact h.symm
      rw [hsval, le_div_iff₀ (mul_pos hsA hsB)] at hts
      have hdR : (0 : ℝ) ≤ ((dotl a b : ℚ) : ℝ) := le_trans hCpos.le hts
      constructor
      · exact_mod_cast hdR
      · have hsq : ((t : ℝ) * (Real.sqrt ((dotl a a : ℚ) : ℝ) * Real.sqrt ((dotl b b : ℚ) : ℝ))) ^ 2
            ≤ ((dotl a b : ℚ) : ℝ) ^ 2 := by
          exact pow_le_pow_left₀ hCpos.le hts 2
        rw [hC2] at hsq
        exact_mod_cast hsq

/-- For a current embedding of the expected dimension, the duplicate loop
returns the first finding with a valid embedding whose similarity reaches
the threshold. -/
theorem findDup_eq_findFirst (cur : List ℚ) (hcur : cur.length = 1536) (l : List Finding) :
    findDup cur l =
      l.find? (fun f => (f.emb.length == 1536) && simGeQ cur f.emb similarityThreshold) := by
  induction l with
  | nil => rfl
  | cons f fs ih =>
    by_cases h1 : f.emb.length = 1536
    · by_cases h3 : simGeQ cur f.emb similarityThreshold = true
      · simp [findDup, h1, hcur, h3, List.find?]
      · simp only [Bool.not_eq_true] at h3
        simp [findDup, h1, hcur, h3, List.find?, ih]
    · have hb : (f.emb.length == 1536) = false := by simp [h1]
      simp [findDup, h1, List.find?, ih, hb]

/-- Claim C10: `executeSearchTool` and `executeScrapeTool` are total at
their interface: every fetch outcome yields a returned value (never a
throw); every failure, including the 60-second timeout abort, is returned
as an object with the error message together with the originating query
(with an empty result list) for search, or the originating url for
scrape. -/
theorem c10_tools_total :
    ∀ (args : SearchArgs) (isBlacklistedDomain : String → Bool) (m : String) (status : Nat)
      (statusText errorText : String) (sargs : ScrapeArgs),
    executeSearchTool args isBlacklistedDomain FetchOut.abortTimeout =
      SearchToolRes.err searchTimeoutMsg args.query [] ∧
    executeSearchTool args isBlacklistedDomain (FetchOut.netErr m) =
      SearchToolRes.err m args.query [] ∧
    executeSearchTool args isBlacklistedDomain (FetchOut.notOk status statusText errorText) =
      SearchToolRes.err (searchFailureMsg status statusText errorText) args.query [] ∧
    (∀ fetched : FetchOut (List WebItem),
      (∃ q c rs fc,
        executeSearchTool args isBlacklistedDomain fetched = SearchToolRes.ok q c rs fc) ∨
      (∃ e,
        executeSearchTool args isBlacklistedDomain fetched = SearchToolRes.err e args.query [])) ∧
    executeScrapeTool sargs FetchOut.abortTimeout =
      ScrapeToolRes.err scrapeTimeoutMsg sargs.url ∧
    executeScrapeTool sargs (FetchOut.netErr m) = ScrapeToolRes.err m sargs.url ∧
    executeScrapeTool sargs (FetchOut.notOk status statusText errorText) =
      ScrapeToolRes.err (scrapeFailureMsg status statusText errorText) sargs.url ∧
    (∀ fetched : FetchOut ScrapeData,
      (∃ u t c fav scr, executeScrapeTool sargs fetched = ScrapeToolRes.ok u t c fav scr) ∨
      (∃ e, executeScrapeTool sargs fetched = ScrapeToolRes.err e sargs.url)) := by
  intro args isBlacklistedDomain m status statusText errorText sargs
  refine ⟨rfl, rfl, rfl, ?_, rfl, rfl, rfl, ?_⟩
  · intro fetched
    cases fetched with
    | abortTimeout => exact Or.inr ⟨searchTimeoutMsg, rfl⟩
    | netErr m2 => exact Or.inr ⟨m2, rfl⟩
    | notOk st3 st4 st5 => exact Or.inr ⟨searchFailureMsg st3 st4 st5, rfl⟩
    | ok payload => exact Or.inl ⟨_, _, _, _, rfl⟩
  · intro fetched
    cases fetched with
    | abortTimeout => exact Or.inr ⟨scrapeTimeoutMsg, rfl⟩
    | netErr m2 => exact Or.inr ⟨m2, rfl⟩
    | notOk st3 st4 st5 => exact Or.inr ⟨scrapeFailureMsg st3 st4 st5, rfl⟩
    | ok payload => exact Or.inl ⟨_, _, _, _, _, rfl⟩

/-- Claim C2 counterexample: a completely configured but inactive scout
with a running execution gets the "is not active" 500 refusal, not the 409
conflict carrying the running execution's id, because the entry point
checks `is_active` before looking for a running execution. -/
theorem c2_inactive_scout_counterexample :
    (serve noBl noParse c2Req).1 = ServeResponse.err "Scout s1 is not active" ∧
    c2Req.runningExecutionId = some "e1" ∧
    (serve noBl noParse c2Req).1 ≠ ServeResponse.conflict "s1" "e1" := by
  refine ⟨by decide, rfl, by decide⟩

/-- Claim C2 (amended): for every invocation of the executor entry point
with a scoutId whose scout is active and completely configured and already
has an execution in status running, the response is the 409 conflict
carrying the running execution's id, and the executor is never invoked, so
no execution row or step is created and the scout row is untouched (the
second component `none` records that). -/
theorem c2_conflict_amended (isBlacklistedDomain : String → Bool)
    (jparse : String → Option ScoutResponse) (req : ServeReq) (sid : String) (sc : ScoutCfg)
    (rid : String) (hopt : req.isOptions = false) (henv : req.envOk = true)
    (hsid : req.scoutId = some sid) (hlk : req.lookup = some sc)
    (hact : sc.row.is_active = true) (hcmp : isComplete sc = true)
    (hrun : req.runningExecutionId = some rid) :
    serve isBlacklistedDomain jparse req = (ServeResponse.conflict sc.id rid, none) := by
  simp [serve, hopt, henv, hsid, hlk, hact, hcmp, hrun]

theorem c2_conflict_amended_witness :
    serve noBl noParse c2wReq = (ServeResponse.conflict c2wScout.id "e1", none) :=
  c2_conflict_amended noBl noParse c2wReq "s1" c2wScout "e1" rfl rfl rfl rfl rfl (by decide) rfl

/-- Claim C7: after every failed run the executor sets the scout's
`last_run_at` to the current time, increments `consecutive_failures` by 1
from the value read at dispatch, and sets `is_active = false` whenever the
incremented count reaches 3; consequently every scout the executor has
driven to 3 or more consecutive failures is inactive. -/
theorem c7_failure_bookkeeping (isBlacklistedDomain : String → Bool)
    (jparse : String → Option ScoutResponse) (inp : RunInput)
    (hf : (executeScoutAgent isBlacklistedDomain jparse inp).exec.status = ExecStatus.failed) :
    (executeScoutAgent isBlacklistedDomain jparse inp).scout.last_run_at = some inp.now ∧
    (executeScoutAgent isBlacklistedDomain jparse inp).scout.consecutive_failures =
      inp.scout.consecutive_failures + 1 ∧
    (3 ≤ (executeScoutAgent isBlacklistedDomain jparse inp).scout.consecutive_failures →
      (executeScoutAgent isBlacklistedDomain jparse inp).scout.is_active = false) := by
  unfold executeScoutAgent at hf ⊢
  by_cases hk : inp.hasKey = true
  · rw [if_pos hk] at hf ⊢
    generalize runLoopAux isBlacklistedDomain inp.turns maxLoops 0 (initState inp.scout) = p
      at hf ⊢
    obtain ⟨st, ex⟩ := p
    cases ex with
    | finals content lc => simp [finishFinal] at hf
    | maxed => simp [finishMaxed] at hf
    | threw msg =>
      refine ⟨rfl, rfl, fun h3 => ?_⟩
      simp only [failedResult] at h3 ⊢
      rw [if_pos h3]
  · rw [if_neg hk] at hf ⊢
    refine ⟨rfl, rfl, fun h3 => ?_⟩
    simp only [failedResult] at h3 ⊢
    rw [if_pos h3]

theorem c7_failure_bookkeeping_witness :
    (executeScoutAgent noBl noParse c7Inp).scout.last_run_at = some c7Inp.now ∧
    (executeScoutAgent noBl noParse c7Inp).scout.consecutive_failures =
      c7Inp.scout.consecutive_failures + 1 ∧
    (3 ≤ (executeScoutAgent noBl noParse c7Inp).scout.consecutive_failures →
      (executeScoutAgent noBl noParse c7Inp).scout.is_active = false) :=
  c7_failure_bookkeeping noBl noParse c7Inp (by decide)

/-- Claim C6: if the agent loop completes all 7 iterations without the
assistant producing a message free of tool calls, the execution is written
with status completed carrying the synthetic partial results summary (its
`taskCompleted` is false, its `taskStatus` is "partial" and its response is
the reached-iteration-limit message), and the scout's
`consecutive_failures` is reset to 0 with `last_run_at` updated: the run
counts as a completion, not a failure. -/
theorem c6_maxLoops_completion (isBlacklistedDomain : String → Bool)
    (jparse : String → Option ScoutResponse) (inp : RunInput) (st : LoopState)
    (hk : inp.hasKey = true)
    (hloop : runLoopAux isBlacklistedDomain inp.turns maxLoops 0 (initState inp.scout) =
      (st, LoopExit.maxed)) :
    (executeScoutAgent isBlacklistedDomain jparse inp).exec.status = ExecStatus.completed ∧
    (executeScoutAgent isBlacklistedDomain jparse inp).exec.results_summary =
      some incompleteSummary ∧
    incompleteSummary.taskCompleted = false ∧
    incompleteSummary.taskStatus = "partial" ∧
    incompleteSummary.response = reachedLimitMsg ∧
    (executeScoutAgent isBlacklistedDomain jparse inp).scout.consecutive_failures = 0 ∧
    (executeScoutAgent isBlacklistedDomain jparse inp).scout.last_run_at = some inp.now := by
  unfold executeScoutAgent
  rw [if_pos hk, hloop]
  exact ⟨rfl, rfl, rfl, rfl, rfl, rfl, rfl⟩

theorem c6_maxLoops_completion_witness :
    (executeScoutAgent noBl noParse c6Inp).exec.status = ExecStatus.completed ∧
    (executeScoutAgent noBl noParse c6Inp).exec.results_summary = some incompleteSummary ∧
    incompleteSummary.taskCompleted = false ∧
    incompleteSummary.taskStatus = "partial" ∧
    incompleteSummary.response = reachedLimitMsg ∧
    (executeScoutAgent noBl noParse c6Inp).scout.consecutive_failures = 0 ∧
    (executeScoutAgent noBl noParse c6Inp).scout.last_run_at = some c6Inp.now :=
  c6_maxLoops_completion noBl noParse c6Inp (initState c6Inp.scout) rfl (by decide)

/-- Claim C3: the success email is attempted if and only if the run's
final structured response (the one parsed from the tool-free assistant
message) has `taskCompleted = true` and the run was not marked duplicate:
in particular a completed run marked duplicate sends no email, and the
duplicate mark is the only condition besides `taskCompleted` that
suppresses it. -/
theorem c3_email_iff (isBlacklistedDomain : String → Bool)
    (jparse : String → Option ScoutResponse) (inp : RunInput) :
    (executeScoutAgent isBlacklistedDomain jparse inp).emailSent = true ↔
    ∃ r, (executeScoutAgent isBlacklistedDomain jparse inp).finalParsed = some r ∧
      r.taskCompleted = true ∧
      (executeScoutAgent isBlacklistedDomain jparse inp).isDuplicate = false := by
  unfold executeScoutAgent
  by_cases hk : inp.hasKey = true
  · rw [if_pos hk]
    generalize runLoopAux isBlacklistedDomain inp.turns maxLoops 0 (initState inp.scout) = p
    obtain ⟨st, ex⟩ := p
    cases ex with
    | finals content lc =>
      simp only [finishFinal, Option.some.injEq]
      constructor
      · intro h
        rw [Bool.and_eq_true] at h
        obtain ⟨h1, h2⟩ := h
        exact ⟨parseFinal jparse content, rfl, h1, by
          rcases hd : dedupDecision (parseFinal jparse content)
              (genSummary (parseFinal jparse content) inp.summary).2 inp.recent with _ | f
          · rfl
          · rw [hd] at h2; simp [Option.isNone] at h2⟩
      · rintro ⟨r, hr, h1, h2⟩
        rw [Bool.and_eq_true]
        have hr' : r = parseFinal jparse content := hr.symm
        refine ⟨hr' ▸ h1, ?_⟩
        rcases hd : dedupDecision (parseFinal jparse content)
            (genSummary (parseFinal jparse content) inp.summary).2 inp.recent with _ | f
        · rfl
        · rw [hd] at h2; simp [Option.isSome] at h2
    | maxed => simp [finishMaxed]
    | threw msg => simp [failedResult]
  · rw [if_neg hk]
    simp [failedResult]

theorem c3_email_iff_witness :
    (executeScoutAgent noBl noParse c3Inp).emailSent = true ↔
    ∃ r, (executeScoutAgent noBl noParse c3Inp).finalParsed = some r ∧
      r.taskCompleted = true ∧ (executeScoutAgent noBl noParse c3Inp).isDuplicate = false :=
  c3_email_iff noBl noParse c3Inp

/-- Claim C9 counterexample: a final assistant message whose content is the
empty string fails to parse, but the structured result's response is the
placeholder text, not the raw (empty) content, because the fallback uses
JavaScript truthiness of the content. -/
theorem c9_empty_content_counterexample :
    (executeScoutAgent noBl noParse c9Inp).finalParsed =
      some { taskCompleted := false, taskStatus := "insufficient_data",
             response := agentNoOutputMsg } ∧
    agentNoOutputMsg ≠ "" := by
  refine ⟨by decide, by decide⟩

/-- Claim C9 (amended): when the final content, after the cleanup
(stripping markdown code fences and truncating to the last closing brace),
fails to parse as JSON, the structured result is exactly
`taskCompleted = false, taskStatus = "insufficient_data"` with the raw
content as response when that content is non-empty, and the placeholder
"Agent completed without structured output" when the content is null or
empty; when it parses, the parsed object is used as the structured result,
and the run's recorded structured response is exactly this parse of the
final message's content. -/
theorem c9_parse_amended (jparse : String → Option ScoutResponse) :
    parseFinal jparse none =
      { taskCompleted := false, taskStatus := "insufficient_data",
        response := agentNoOutputMsg } ∧
    (∀ s : String, jparse (cleanJson s) = none →
      parseFinal jparse (some s) =
        { taskCompleted := false, taskStatus := "insufficient_data",
          response := if s = "" then agentNoOutputMsg else s }) ∧
    (∀ (s : String) (r : ScoutResponse), jparse (cleanJson s) = some r →
      parseFinal jparse (some s) = r) ∧
    (∀ (isBlacklistedDomain : String → Bool) (inp : RunInput) (st : LoopState)
      (content : Option String) (lc : Nat), inp.hasKey = true →
      runLoopAux isBlacklistedDomain inp.turns maxLoops 0 (initState inp.scout) =
        (st, LoopExit.finals content lc) →
      (executeScoutAgent isBlacklistedDomain jparse inp).finalParsed =
        some (parseFinal jparse content)) := by
  refine ⟨rfl, ?_, ?_, ?_⟩
  · intro s hs
    simp [parseFinal, hs, fallbackResponse]
  · intro s r hs
    simp [parseFinal, hs]
  · intro isBlacklistedDomain inp st content lc hk hloop
    unfold executeScoutAgent
    rw [if_pos hk, hloop]
    rfl

theorem c9_parse_amended_witness :
    parseFinal noParse (some "plain text") =
      { taskCompleted := false, taskStatus := "insufficient_data",
        response := if "plain text" = "" then agentNoOutputMsg else "plain text" } :=
  (c9_parse_amended noParse).2.1 "plain text" rfl

/-- Claim C1 (code divergence): a tool error containing 402 does mark the
user's Firecrawl key invalid and does set `is_active = false` for every
scout of the user, but it does not abort the run: the throw of the 402
handler is caught by the enclosing tool-execution catch, the
credits-exhausted text becomes the tool result fed back to the model, and
here the run then ends as a normal completion with `error_message` null
and `consecutive_failures` reset to 0 instead of being recorded as failed
with the credits-exhausted message and an incremented failure count. -/
theorem c1_402_sideEffects_without_abort :
    (executeScoutAgent noBl noParse c1Inp).keyMarkedInvalid = true ∧
    (executeScoutAgent noBl noParse c1Inp).allScoutsDisabled = true ∧
    (executeScoutAgent noBl noParse c1Inp).scout.is_active = false ∧
    (executeScoutAgent noBl noParse c1Inp).exec.status = ExecStatus.completed ∧
    (executeScoutAgent noBl noParse c1Inp).exec.error_message = none ∧
    (executeScoutAgent noBl noParse c1Inp).scout.consecutive_failures = 0 := by
  refine ⟨by decide, by decide, by decide, by decide, by decide, by decide⟩

/-- Claim C8: in the loop's error accounting, a tool error from scraping a
blacklisted url leaves `consecutiveErrors` unchanged and does not abort;
every other tool error increments it by 1, aborting with the
too-many-errors message carrying the last tool error as soon as the count
reaches `maxConsecutiveErrors` (3) and continuing below it; every tool
success resets the counter to 0; and a loop abort makes the run be
recorded as failed with exactly the thrown message. -/
theorem c8_error_accounting :
    ∀ (isBlacklistedDomain : String → Bool) (st : LoopState) (c : ToolCall),
    (c.outcome = none →
      processToolCall isBlacklistedDomain st c = StepRes.ok { st with cErr := 0 }) ∧
    (c.outcome ≠ none → isBlacklistedScrape isBlacklistedDomain c = true →
      (processToolCall isBlacklistedDomain st c).state.cErr = st.cErr ∧
      (processToolCall isBlacklistedDomain st c).abortMsg = none) ∧
    (c.outcome ≠ none → isBlacklistedScrape isBlacklistedDomain c = false →
      (processToolCall isBlacklistedDomain st c).state.cErr = st.cErr + 1 ∧
      (maxConsecutiveErrors ≤ st.cErr + 1 →
        (processToolCall isBlacklistedDomain st c).abortMsg =
          some (tooManyErrorsMsg ((effErrOf c).getD ""))) ∧
      (st.cErr + 1 < maxConsecutiveErrors →
        (processToolCall isBlacklistedDomain st c).abortMsg = none)) ∧
    (∀ (jparse : String → Option ScoutResponse) (inp : RunInput) (st2 : LoopState) (m : String),
      inp.hasKey = true →
      runLoopAux isBlacklistedDomain inp.turns maxLoops 0 (initState inp.scout) =
        (st2, LoopExit.threw m) →
      (executeScoutAgent isBlacklistedDomain jparse inp).exec.status = ExecStatus.failed ∧
      (executeScoutAgent isBlacklistedDomain jparse inp).exec.error_message = some m) := by
  intro isBlacklistedDomain st c
  refine ⟨?_, ?_, ?_, ?_⟩
  · intro h
    simp [processToolCall, h, effErrOf]
  · intro hne hbl
    rcases hout : c.outcome with _ | e
    · exact absurd hout hne
    · have heff : effErrOf c = some (if jsIncludes e "402" then creditsExhaustedMsg else e) := by
        simp [effErrOf, hout]
        split <;> rfl
      by_cases h401 : jsIncludes e "401" = true <;>
        by_cases h402 : jsIncludes e "402" = true <;>
          simp [processToolCall, hout, heff, h401, h402, hbl, StepRes.state, StepRes.abortMsg]
  · intro hne hbl
    rcases hout : c.outcome with _ | e
    · exact absurd hout hne
    · have heff : effErrOf c = some (if jsIncludes e "402" then creditsExhaustedMsg else e) := by
        simp [effErrOf, hout]
        split <;> rfl
      by_cases h3 : maxConsecutiveErrors ≤ st.cErr + 1 <;>
        by_cases h401 : jsIncludes e "401" = true <;>
          by_cases h402 : jsIncludes e "402" = true <;>
            simp [processToolCall, hout, heff, h401, h402, hbl, h3, Nat.not_le.mp,
              StepRes.state, StepRes.abortMsg, Nat.lt_iff_add_one_le]
  · intro jparse inp st2 m hk hloop
    unfold executeScoutAgent
    rw [if_pos hk, hloop]
    exact ⟨rfl, rfl⟩

theorem c8_error_accounting_witness :
    (processToolCall noBl c8St c8Call).state.cErr = c8St.cErr + 1 ∧
    (maxConsecutiveErrors ≤ c8St.cErr + 1 →
      (processToolCall noBl c8St c8Call).abortMsg =
        some (tooManyErrorsMsg ((effErrOf c8Call).getD ""))) ∧
    (c8St.cErr + 1 < maxConsecutiveErrors →
      (processToolCall noBl c8St c8Call).abortMsg = none) :=
  (c8_error_accounting noBl c8St c8Call).2.2.1 (by decide) (by decide)

/-- Claim C5 counterexample: a run whose summarizer answers with 151
characters and whose embedding call answers with a 2-dimensional vector is
persisted as completed with those values stored unchanged: the executor
enforces neither the 150-character bound nor the 1536-dimension bound. -/
theorem c5_bounds_counterexample :
    (executeScoutAgent noBl parseCompleted c5Inp).exec.status = ExecStatus.completed ∧
    (executeScoutAgent noBl parseCompleted c5Inp).exec.summary_text.map String.length =
      some 151 ∧
    (executeScoutAgent noBl parseCompleted c5Inp).exec.summary_embedding.map List.length =
      some 2 := by
  refine ⟨by decide, by decide, by decide⟩

/-- Claim C5 (amended): for every execution persisted with status
completed, the stored `summary_text` is null or exactly the trimmed
summarizer output, and the stored `summary_embedding` is null or exactly
the vector returned by the embedding call; hence the claimed bounds (at
most 150 characters, exactly 1536 dimensions) hold whenever those API
responses satisfy them, the executor itself enforcing neither. -/
theorem c5_bounds_amended (isBlacklistedDomain : String → Bool)
    (jparse : String → Option ScoutResponse) (inp : RunInput)
    (htext : ∀ s, summaryTextOf inp.summary = some s → (jsTrim s).length ≤ 150)
    (hembLen : ∀ e, summaryEmbOf inp.summary = some e → e.length = 1536)
    (hc : (executeScoutAgent isBlacklistedDomain jparse inp).exec.status =
      ExecStatus.completed) :
    ((executeScoutAgent isBlacklistedDomain jparse inp).exec.summary_text = none ∨
      ∃ s, (executeScoutAgent isBlacklistedDomain jparse inp).exec.summary_text = some s ∧
        s.length ≤ 150) ∧
    ((executeScoutAgent isBlacklistedDomain jparse inp).exec.summary_embedding = none ∨
      ∃ e, (executeScoutAgent isBlacklistedDomain jparse inp).exec.summary_embedding = some e ∧
        e.length = 1536) := by
  unfold executeScoutAgent at hc ⊢
  by_cases hk : inp.hasKey = true
  · rw [if_pos hk] at hc ⊢
    generalize runLoopAux isBlacklistedDomain inp.turns maxLoops 0 (initState inp.scout) = p
      at hc ⊢
    obtain ⟨st, ex⟩ := p
    cases ex with
    | threw msg => simp [failedResult] at hc
    | maxed => exact ⟨Or.inl rfl, Or.inl rfl⟩
    | finals content lc =>
      simp only [finishFinal]
      rcases hsum : inp.summary with _ | s | ⟨s, e⟩ <;>
        by_cases htc : (parseFinal jparse content).taskCompleted = true
      · exact ⟨Or.inl (by simp [genSummary, htc]), Or.inl (by simp [genSummary, htc])⟩
      · simp only [Bool.not_eq_true] at htc
        exact ⟨Or.inl (by simp [genSummary, htc]), Or.inl (by simp [genSummary, htc])⟩
      · refine ⟨Or.inr ⟨jsTrim s, by simp [genSummary, htc], ?_⟩,
          Or.inl (by simp [genSummary, htc])⟩
        exact htext s (by rw [hsum]; rfl)
      · simp only [Bool.not_eq_true] at htc
        exact ⟨Or.inl (by simp [genSummary, htc]), Or.inl (by simp [genSummary, htc])⟩
      · refine ⟨Or.inr ⟨jsTrim s, by simp [genSummary, htc], ?_⟩,
          Or.inr ⟨e, by simp [genSummary, htc], ?_⟩⟩
        · exact htext s (by rw [hsum]; rfl)
        · exact hembLen e (by rw [hsum]; rfl)
      · simp only [Bool.not_eq_true] at htc
        exact ⟨Or.inl (by simp [genSummary, htc]), Or.inl (by simp [genSummary, htc])⟩
  · rw [if_neg hk] at hc
    simp [failedResult] at hc

theorem c5_bounds_amended_witness :
    ((executeScoutAgent noBl parseCompleted c5wInp).exec.summary_text = none ∨
      ∃ s, (executeScoutAgent noBl parseCompleted c5wInp).exec.summary_text = some s ∧
        s.length ≤ 150) ∧
    ((executeScoutAgent noBl parseCompleted c5wInp).exec.summary_embedding = none ∨
      ∃ e, (executeScoutAgent noBl parseCompleted c5wInp).exec.summary_embedding = some e ∧
        e.length = 1536) := by
  refine c5_bounds_amended noBl parseCompleted c5wInp ?_ ?_ (by decide)
  · intro s hs
    have h0 : summaryTextOf c5wInp.summary = some "short summary" := rfl
    rw [h0] at hs
    injection hs with h
    subst h
    decide
  · intro e hs
    have h0 : summaryEmbOf c5wInp.summary = none := rfl
    rw [h0] at hs
    exact Option.noConfusion hs

theorem c4Cur_len : c4Cur.length = 1536 := by simp [c4Cur]

theorem c4E1_len : c4E1.length = 1536 := by simp [c4E1]

theorem c4E2_len : c4E2.length = 1536 := by simp [c4E2]

theorem c4_dot_cc : dotl c4Cur c4Cur = 1 := by
  unfold c4Cur
  rw [dotl_two_replicate_zero]
  norm_num

theorem c4_dot_11 : dotl c4E1 c4E1 = 169 := by
  unfold c4E1
  rw [dotl_two_replicate_zero]
  norm_num

theorem c4_dot_c1 : dotl c4Cur c4E1 = 12 := by
  unfold c4Cur c4E1
  rw [dotl_two_replicate_zero]
  norm_num

theorem c4_dot_22 : dotl c4E2 c4E2 = 625 := by
  unfold c4E2
  rw [dotl_two_replicate_zero]
  norm_num

theorem c4_dot_c2 : dotl c4Cur c4E2 = 24 := by
  unfold c4Cur c4E2
  rw [dotl_two_replicate_zero]
  norm_num

/-- The most recent finding clears the 0.85 threshold (its cosine
similarity with the current embedding is 12/13). -/
theorem c4_simGe_f1 : simGeQ c4Cur c4E1 similarityThreshold = true := by
  unfold simGeQ similarityThreshold
  rw [c4_dot_cc, c4_dot_11, c4_dot_c1, if_neg (by norm_num)]
  simp only [decide_eq_true_eq]
  norm_num

/-- The most recent finding does not reach similarity 24/25. -/
theorem c4_simGe_f1_below : simGeQ c4Cur c4E1 (24 / 25) = false := by
  unfold simGeQ
  rw [c4_dot_cc, c4_dot_11, c4_dot_c1, if_neg (by norm_num)]
  simp only [decide_eq_false_iff_not, not_and]
  intro _
  norm_num

/-- The older finding reaches similarity 24/25 exactly. -/
theorem c4_simGe_f2_at : simGeQ c4Cur c4E2 (24 / 25) = true := by
  unfold simGeQ
  rw [c4_dot_cc, c4_dot_22, c4_dot_c2, if_neg (by norm_num)]
  simp only [decide_eq_true_eq]
  norm_num

/-- Claim C4 counterexample: with the current embedding `c4Cur` and recent
findings `c4F1` (similarity 12/13) then `c4F2` (similarity 24/25), the run
is marked duplicate of `c4F1`, the first finding above the threshold in
recency order, even though `c4F2` has strictly higher cosine similarity:
the argmax finding is not the one annotated. -/
theorem c4_first_not_argmax_counterexample :
    (executeScoutAgent noBl parseCompleted c4Input).dupFinding = some c4F1 ∧
    c4F1 ≠ c4F2 ∧
    (∃ s2 : ℝ, cosineSimilarity c4Cur c4F2.emb = some s2 ∧
      ∀ s1 : ℝ, cosineSimilarity c4Cur c4F1.emb = some s1 → s1 < s2) := by
  have hne12 : c4F1 ≠ c4F2 := by
    intro h
    have := congrArg Finding.completed_at h
    simp [c4F1, c4F2] at this
  have hstep1 : (executeScoutAgent noBl parseCompleted c4Input).dupFinding =
      dedupDecision (parseFinal parseCompleted (some "json")) (some c4Cur) [c4F1, c4F2] := rfl
  have hfilter : [c4F1, c4F2].filter (fun f => f.emb.length == 1536) = [c4F1, c4F2] := by
    simp [c4F1, c4F2, List.filter, c4E1_len, c4E2_len]
  have hstep2 : dedupDecision (parseFinal parseCompleted (some "json")) (some c4Cur)
      [c4F1, c4F2] = findDup c4Cur [c4F1, c4F2] := by
    unfold dedupDecision
    rw [hfilter]
    rfl
  have hstep3 : findDup c4Cur [c4F1, c4F2] = some c4F1 := by
    unfold findDup
    have hb1 : ¬c4F1.emb.length ≠ 1536 := by simp [c4F1, c4E1_len]
    have hb2 : ¬c4F1.emb.length ≠ c4Cur.length := by simp [c4F1, c4E1_len, c4Cur_len]
    rw [if_neg hb1, if_neg hb2, if_pos (by
      show simGeQ c4Cur c4F1.emb similarityThreshold = true
      exact c4_simGe_f1)]
  refine ⟨hstep1.trans (hstep2.trans hstep3), hne12, ?_⟩
  have hl2 : c4Cur.length = c4E2.length := by rw [c4Cur_len, c4E2_len]
  have hl1 : c4Cur.length = c4E1.length := by rw [c4Cur_len, c4E1_len]
  obtain ⟨s2, hs2, hts2⟩ :=
    (simGeQ_iff_cosine c4Cur c4E2 (24 / 25) hl2 (by norm_num)).mp c4_simGe_f2_at
  refine ⟨s2, hs2, ?_⟩
  intro s1 hs1
  by_contra hlt
  push_neg at hlt
  have : simGeQ c4Cur c4E1 (24 / 25) = true :=
    (simGeQ_iff_cosine c4Cur c4E1 (24 / 25) hl1 (by norm_num)).mpr
      ⟨s1, hs1, le_trans hts2 hlt⟩
  rw [c4_simGe_f1_below] at this
  exact Bool.noConfusion this

/-- Claim C4 (amended): for every completed run with a 1536-dimensional
summary embedding and a non-empty set of valid recent findings, the run is
marked duplicate of the first finding, in recency order, whose cosine
similarity with the new embedding is at least 0.85 (rather than the
argmax), the appended note names that finding's date and summary text, and
no note is appended when no finding reaches the threshold; the executable
threshold test used coincides with cosine similarity at least 0.85. -/
theorem c4_dedup_amended (isBlacklistedDomain : String → Bool)
    (jparse : String → Option ScoutResponse) (inp : RunInput) (res : RunResult)
    (resp : ScoutResponse) (cur : List ℚ)
    (hrun : executeScoutAgent isBlacklistedDomain jparse inp = res)
    (hfp : res.finalParsed = some resp)
    (htc : resp.taskCompleted = true)
    (hemb : res.exec.summary_embedding = some cur)
    (hcur : cur.length = 1536)
    (hne : inp.recent.filter (fun f => f.emb.length == 1536) ≠ []) :
    res.dupFinding =
      (inp.recent.filter (fun f => f.emb.length == 1536)).find?
        (fun f => (f.emb.length == 1536) && simGeQ cur f.emb similarityThreshold) ∧
    res.isDuplicate = res.dupFinding.isSome ∧
    (∀ f, res.dupFinding = some f →
      res.finalAnnotated = some { resp with response := resp.response ++ mkDupNote f }) ∧
    (res.dupFinding = none → res.finalAnnotated = some resp) ∧
    (∀ e : List ℚ, e.length = cur.length →
      (simGeQ cur e similarityThreshold = true ↔
        ∃ s : ℝ, cosineSimilarity cur e = some s ∧ ((85 : ℝ) / 100) ≤ s)) := by
  subst hrun
  unfold executeScoutAgent at hfp hemb ⊢
  by_cases hk : inp.hasKey = true
  · rw [if_pos hk] at hfp hemb ⊢
    generalize runLoopAux isBlacklistedDomain inp.turns maxLoops 0 (initState inp.scout) = p
      at hfp hemb ⊢
    obtain ⟨st, ex⟩ := p
    cases ex with
    | threw msg => simp [failedResult] at hfp
    | maxed => simp [finishMaxed] at hfp
    | finals content lc =>
      simp only [finishFinal, Option.some.injEq] at hfp hemb ⊢
      subst hfp
      have hie : (inp.recent.filter (fun f => f.emb.length == 1536)).isEmpty = false := by
        rcases hfl : inp.recent.filter (fun f => f.emb.length == 1536) with _ | ⟨x, xs⟩
        · exact absurd hfl hne
        · rw [hfl]
          rfl
      have hdup : dedupDecision (parseFinal jparse content)
          (genSummary (parseFinal jparse content) inp.summary).2 inp.recent =
          findDup cur (inp.recent.filter (fun f => f.emb.length == 1536)) := by
        simp only [dedupDecision]
        rw [hemb, htc, hie]
        simp
      refine ⟨?_, ?_, ?_, ?_, ?_⟩
      · rw [hdup, findDup_eq_findFirst cur hcur]
      · trivial
      · intro f hf
        rw [hf]
        rfl
      · intro hf
        rw [hf]
        rfl
      · intro e he
        have hcast : ((similarityThreshold : ℚ) : ℝ) = (85 : ℝ) / 100 := by
          norm_num [similarityThreshold]
        have h := simGeQ_iff_cosine cur e similarityThreshold he.symm
          (by norm_num [similarityThreshold])
        rw [hcast] at h
        exact h
  · rw [if_neg hk] at hfp
    simp [failedResult] at hfp

theorem c4_dedup_amended_witness :
    (executeScoutAgent noBl parseCompleted c4wInput).dupFinding =
      (c4wInput.recent.filter (fun f => f.emb.length == 1536)).find?
        (fun f => (f.emb.length == 1536) && simGeQ c4Cur f.emb similarityThreshold) :=
  (c4_dedup_amended noBl parseCompleted c4wInput
    (executeScoutAgent noBl parseCompleted c4wInput)
    { taskCompleted := true, taskStatus := "completed", response := "Found" } c4Cur
    rfl rfl rfl rfl c4Cur_len
    (by simp [c4wInput, c4Input, List.filter, c4F1, c4E1_len])).1

end OpenScouts
